import Mathlib

set_option maxHeartbeats 1000000

/-!
Verification development for the vector_reader upload pipeline
(`archive_reader.py`, `file_uploader.py`, `validators.py`).

The Python source is shallowly embedded: filesystem paths are component
lists, the mutable on-disk state of one orchestration run is an explicit
`FS` record threaded through the control flow, Python exceptions are an
`Except` error channel carrying the state at the moment of the raise, and
the external collaborators (MIME sniffer, geometry library, archive
contents) are supplied by an `Env` record of total functions.
-/

/-- Python exception kinds raised by the embedded code. -/
inductive PyErr where
  | validationError (msg : String)
  | typeError (msg : String)
  | indexError
  | exception (msg : String)
  deriving DecidableEq, Repr

/- ----------------------------------------------------------------
   Path model for `ArchiveReader.__read_from_tar` (archive_reader.py 71-101).
   An absolute path is its list of components below the root.
   ---------------------------------------------------------------- -/

/-- `os.path.abspath` normalisation of an absolute path given as components:
`..` pops a component (clamped at the root), `.` is dropped. -/
def normComp (l : List String) : List String :=
  l.foldl
    (fun acc c =>
      if c = ".." then acc.dropLast else if c = "." then acc else acc ++ [c])
    []

/-- Render an absolute component list the way the OS renders the path. -/
def render (l : List String) : String :=
  "/" ++ String.intercalate "/" l

/-- `os.path.commonprefix` works character by character on the two strings. -/
def commonPrefixChars : List Char → List Char → List Char
  | a :: as, b :: bs => if a = b then a :: commonPrefixChars as bs else []
  | _, _ => []

/-- `os.path.commonprefix([s, t])` for two strings. -/
def commonPrefixString (s t : String) : String :=
  String.mk (commonPrefixChars s.data t.data)

/-- `is_within_directory(directory, target)` from `__read_from_tar`:
both arguments are passed through `abspath`, then the check is
`os.path.commonprefix([abs_directory, abs_target]) == abs_directory`. -/
def is_within_directory (directory target : List String) : Bool :=
  decide (commonPrefixString (render (normComp directory)) (render (normComp target))
    = render (normComp directory))

/-- `safe_extract(tar, path)` from `__read_from_tar`: every member name is
joined onto the workspace and checked with `is_within_directory`; only if
all members pass does `tar.extractall` run, writing each member at its
resolved destination.  The returned list is the set of written paths. -/
def safe_extract (workspace : List String) (members : List (List String)) :
    Except String (List (List String)) :=
  if members.all (fun m => is_within_directory workspace (workspace ++ m)) then
    Except.ok (members.map (fun m => normComp (workspace ++ m)))
  else
    Except.error "Attempted Path Traversal in Tar File"

lemma commonPrefixChars_eq_self_iff :
    ∀ a b : List Char, commonPrefixChars a b = a ↔ a.isPrefixOf b = true := by
  intro a
  induction a with
  | nil =>
    intro b
    cases b <;> simp [commonPrefixChars, List.isPrefixOf]
  | cons x xs ih =>
    intro b
    cases b with
    | nil => simp [commonPrefixChars, List.isPrefixOf]
    | cons y ys =>
      by_cases hxy : x = y
      · subst hxy
        simp [commonPrefixChars, List.isPrefixOf, ih ys]
      · simp [commonPrefixChars, List.isPrefixOf, hxy]

lemma is_within_directory_iff (directory target : List String) :
    is_within_directory directory target = true ↔
      (render (normComp directory)).data.isPrefixOf (render (normComp target)).data
        = true := by
  unfold is_within_directory commonPrefixString
  rw [decide_eq_true_iff]
  constructor
  · intro h
    have hdata := congrArg String.data h
    simp only at hdata
    exact (commonPrefixChars_eq_self_iff _ _).mp hdata
  · intro h
    have := (commonPrefixChars_eq_self_iff
      (render (normComp directory)).data (render (normComp target)).data).mpr h
    calc String.mk (commonPrefixChars (render (normComp directory)).data
            (render (normComp target)).data)
        = String.mk (render (normComp directory)).data := by rw [this]
      _ = render (normComp directory) := rfl

/-- C1 (counterexample): the claim says every tar entry resolving outside the
workspace aborts extraction and never lands on disk.  The `commonprefix`
check is string-based, so the entry `../ws2/evil` relative to workspace
`/tmp/ws` resolves to `/tmp/ws2/evil` — outside the workspace — yet passes
the check and is extracted (written outside the workspace). -/
theorem c1_traversal_check_counterexample :
    safe_extract ["tmp", "ws"] [["..", "ws2", "evil"]]
      = Except.ok [["tmp", "ws2", "evil"]]
    ∧ (["tmp", "ws"].isPrefixOf ["tmp", "ws2", "evil"]) = false := by
  exact ⟨rfl, by decide⟩

/-- C1 (amended): extraction fails closed — before any entry is written —
whenever some member's resolved destination, rendered as a string, does not
extend the rendered workspace path as a string prefix.  In particular
classic `../../etc/evil` entries are rejected.  (Entries resolving to a
sibling path whose rendering extends the workspace's rendering escape the
check, see the counterexample.) -/
theorem c1_traversal_check_amended (workspace : List String)
    (members : List (List String))
    (h : ∃ m, m ∈ members ∧
      ((render (normComp workspace)).data.isPrefixOf
        (render (normComp (workspace ++ m))).data) = false) :
    safe_extract workspace members
      = Except.error "Attempted Path Traversal in Tar File" := by
  obtain ⟨m, hm, hpre⟩ := h
  unfold safe_extract
  cases htest : members.all
      (fun m => is_within_directory workspace (workspace ++ m)) with
  | false => simp
  | true =>
    exfalso
    rw [List.all_eq_true] at htest
    have hin := htest m hm
    rw [is_within_directory_iff] at hin
    rw [hin] at hpre
    exact absurd hpre (by simp)

/-- C1 amended witness: the crafted entry `../../etc/evil` makes extraction
fail before anything is written. -/
theorem c1_traversal_check_amended_witness :
    safe_extract ["tmp", "ws"] [["..", "..", "etc", "evil"]]
      = Except.error "Attempted Path Traversal in Tar File" :=
  c1_traversal_check_amended ["tmp", "ws"] [["..", "..", "etc", "evil"]]
    ⟨["..", "..", "etc", "evil"], by decide, by decide⟩

/- ----------------------------------------------------------------
   Reducible character-list models of the Python string methods used by
   the validators (`str.lower`, `str.endswith`, `str.rsplit('.', 1)`).
   ---------------------------------------------------------------- -/

/-- `str.lower()` (restricted to ASCII, as the source only compares ASCII
extensions). -/
def strToLower (s : String) : String :=
  String.mk (s.data.map Char.toLower)

/-- `str.endswith(suffix)`. -/
def strEndsWith (s suffix : String) : Bool :=
  suffix.data.isSuffixOf s.data

/-- Split a character list at every occurrence of `sep`. -/
def splitOnChar (sep : Char) : List Char → List (List Char)
  | [] => [[]]
  | c :: cs =>
    match splitOnChar sep cs with
    | [] => [[]]
    | h :: t => if c = sep then [] :: h :: t else (c :: h) :: t

/- ----------------------------------------------------------------
   Geometry library model (collaborator of validators.py).
   A geometry is its WKT type name plus the rest of its WKT text;
   `str(geom)` is the full WKT text and `ogr.CreateGeometryFromWkt`
   parses it back (type name = text up to the first space).
   ---------------------------------------------------------------- -/

/-- A geometry held by the external library: `name` is what
`GetGeometryName()` returns, `coords` the rest of the WKT text. -/
structure Geometry where
  name : String
  coords : String
  deriving DecidableEq, Repr

/-- The WKT text `str(geom)` of a geometry, as a character list. -/
def Geometry.wktData (g : Geometry) : List Char :=
  g.name.data ++ ' ' :: g.coords.data

/-- `ogr.CreateGeometryFromWkt`: the type name is the text up to the first
space, the coordinates are the remainder. -/
def geometryFromWktData (cs : List Char) : Geometry :=
  { name := String.mk (cs.takeWhile (fun c => c != ' '))
    coords := String.mk ((cs.dropWhile (fun c => c != ' ')).drop 1) }

/-- `ogr.CreateGeometryFromWkt(str(geom))` — the round-trip clone made by
`write_geometry_to_data_source` (validators.py line 62). -/
def cloneGeometry (g : Geometry) : Geometry :=
  geometryFromWktData g.wktData

/-- A source feature as iterated by `ds_layer.GetNextFeature()`. -/
structure Feature where
  geom : Geometry
  deriving DecidableEq, Repr

/-- A feature created in the output layer: `ogr.Feature(...)` with the
geometry set only when the type filter passes. -/
structure OutFeature where
  geom : Option Geometry
  deriving DecidableEq, Repr

/-- A layer of the shared output datasource. -/
structure OutLayer where
  name : String
  features : List OutFeature
  deriving DecidableEq, Repr

lemma takeWhile_append_stop (p : Char → Bool) :
    ∀ (l r : List Char) (a : Char), (∀ c ∈ l, p c = true) → p a = false →
      (l ++ a :: r).takeWhile p = l := by
  intro l
  induction l with
  | nil => intro r a _ ha; simp [List.takeWhile, ha]
  | cons c cs ih =>
    intro r a h ha
    have hc : p c = true := h c (by simp)
    simp only [List.cons_append, List.takeWhile_cons, hc, if_true]
    rw [ih r a (fun x hx => h x (by simp [hx])) ha]

lemma dropWhile_append_stop (p : Char → Bool) :
    ∀ (l r : List Char) (a : Char), (∀ c ∈ l, p c = true) → p a = false →
      (l ++ a :: r).dropWhile p = a :: r := by
  intro l
  induction l with
  | nil => intro r a _ ha; simp [List.dropWhile, ha]
  | cons c cs ih =>
    intro r a h ha
    have hc : p c = true := h c (by simp)
    simp only [List.cons_append, List.dropWhile_cons, hc, if_true]
    exact ih r a (fun x hx => h x (by simp [hx])) ha

lemma cloneGeometry_eq (g : Geometry) (h : ∀ c ∈ g.name.data, c ≠ ' ') :
    cloneGeometry g = g := by
  unfold cloneGeometry geometryFromWktData Geometry.wktData
  have hp : ∀ c ∈ g.name.data, (c != ' ') = true := by
    intro c hc; simpa using h c hc
  have hs : ((' ' : Char) != ' ') = false := by decide
  rw [takeWhile_append_stop _ _ _ _ hp hs, dropWhile_append_stop _ _ _ _ hp hs]
  simp

/-- The geometry-type filter condition on validators.py line 61:
`(types and geom.GetGeometryName() in types) or not types`. -/
def appendFeature (types : List String) (f : Feature) : OutFeature :=
  if (!types.isEmpty && types.contains f.geom.name) || types.isEmpty then
    { geom := some (cloneGeometry f.geom) }
  else
    { geom := none }

/-- The spec's wording of the per-feature behaviour, for comparison with
`appendFeature`: the original geometry is carried over exactly when the
filter is empty or the geometry type name is a member of the filter. -/
def specOutFeature (types : List String) (f : Feature) : OutFeature :=
  if types = [] ∨ f.geom.name ∈ types then { geom := some f.geom }
  else { geom := none }

lemma appendFeature_spec (types : List String) (f : Feature)
    (h : ∀ c ∈ f.geom.name.data, c ≠ ' ') :
    appendFeature types f = specOutFeature types f := by
  unfold appendFeature specOutFeature
  cases types with
  | nil => simp [cloneGeometry_eq _ h]
  | cons t ts =>
    by_cases hmem : f.geom.name ∈ t :: ts
    · simp [hmem, cloneGeometry_eq _ h]
    · simp [hmem]

/-- The per-layer loop of `write_geometry_to_data_source` (validators.py
48-67): for each source layer, if the output datasource has no layer yet a
layer named `layer_1` is created (the `index` variable is never
incremented), otherwise `data_source.GetLayer()` — layer 0 — is reused;
every source feature is appended to that layer. -/
def writeGeometryLoop (src : List (List Feature)) (types : List String)
    (out : List OutLayer) : List OutLayer :=
  match src with
  | [] => out
  | layer :: rest =>
    match out with
    | [] =>
      writeGeometryLoop rest types
        [{ name := "layer_1", features := layer.map (appendFeature types) }]
    | l0 :: tl =>
      writeGeometryLoop rest types
        ({ name := l0.name,
           features := l0.features ++ layer.map (appendFeature types) } :: tl)

/-- The features of layer 0 of the output datasource. -/
def layer0Features : List OutLayer → List OutFeature
  | [] => []
  | l :: _ => l.features

lemma layer0_writeGeometryLoop (types : List String) :
    ∀ (src : List (List Feature)) (out : List OutLayer),
      (∀ layer ∈ src, ∀ f ∈ layer, ∀ c ∈ f.geom.name.data, c ≠ ' ') →
      layer0Features (writeGeometryLoop src types out) =
        layer0Features out ++ src.flatten.map (specOutFeature types) := by
  intro src
  induction src with
  | nil => intro out _; simp [writeGeometryLoop]
  | cons layer rest ih =>
    intro out h
    have hlayer : ∀ f ∈ layer, ∀ c ∈ f.geom.name.data, c ≠ ' ' :=
      h layer (by simp)
    have hrest : ∀ l ∈ rest, ∀ f ∈ l, ∀ c ∈ f.geom.name.data, c ≠ ' ' :=
      fun l hl => h l (by simp [hl])
    have hmap : layer.map (appendFeature types) = layer.map (specOutFeature types) :=
      List.map_congr_left (fun f hf => appendFeature_spec types f (hlayer f hf))
    cases out with
    | nil =>
      rw [writeGeometryLoop, ih _ hrest]
      simp [layer0Features, hmap]
    | cons l0 tl =>
      rw [writeGeometryLoop, ih _ hrest]
      simp [layer0Features, hmap]

/- ----------------------------------------------------------------
   Format validators (validators.py).
   ---------------------------------------------------------------- -/

/-- Shape of a parsed JSON value, as far as `type(json.loads(..)) != dict`
can distinguish it. -/
inductive JsonShape where
  | obj
  | arr
  | scalar
  deriving DecidableEq, Repr

/-- What the external collaborators report about one candidate file:
its sniffed MIME type, the outcome of reading its text, the shape of its
parsed JSON, whether `DataSource(file)` opens it, the layers produced by
the format driver and by the generic `ogr.Open` fallback, and whether the
geometry library raises while reading it. -/
structure FileInfo where
  mime : String := ""
  readResult : Except PyErr String := Except.ok ""
  jsonShape : Option JsonShape := none
  dsOpen : Except PyErr Unit := Except.ok ()
  driverLayers : List (List Feature) := []
  genericLayers : List (List Feature) := []
  openRaises : Option PyErr := none

/-- `Except.isOk`-style projection used to state totality results. -/
def isOkE {ε α : Type} : Except ε α → Bool
  | Except.ok _ => true
  | Except.error _ => false

/-- The body of the `try` block of `GeoJSONValidator.driver_validation`
(validators.py 202-207): read the file, round-trip the text through
`json.dumps`/`ast.literal_eval`, parse it with `json.loads`, reject
non-`dict` values, then open it with `DataSource`. -/
def geoJSONTryChain (info : FileInfo) : Except PyErr Bool :=
  match info.readResult with
  | Except.error e => Except.error e
  | Except.ok _ =>
    match info.jsonShape with
    | none => Except.error (PyErr.exception "json.loads failed")
    | some JsonShape.obj =>
      match info.dsOpen with
      | Except.error e => Except.error e
      | Except.ok _ => Except.ok true
    | some _ => Except.ok false

/-- `GeoJSONValidator.driver_validation` (validators.py 195-211): requires
`text/plain` MIME, then runs the try-chain with every exception downgraded
to `False`. -/
def geoJSONDriverValidation (info : FileInfo) : Except PyErr Bool :=
  if info.mime = "text/plain" then
    match geoJSONTryChain info with
    | Except.ok b => Except.ok b
    | Except.error _ => Except.ok false
  else Except.ok false

/-- `KMZValidator.driver_validation` (validators.py 171-181). -/
def kmzMatches (info : FileInfo) (fileName : String) : Bool :=
  (info.mime = "application/xml" ∨ info.mime = "text/plain")
    && strEndsWith (strToLower fileName) ".kml"

/-- `KMLValidator.driver_validation` (validators.py 151-162). -/
def kmlMatches (info : FileInfo) (fileName : String) : Bool :=
  (info.mime = "application/xml" ∨ info.mime = "text/plain"
      ∨ info.mime = "text/html")
    && strEndsWith (strToLower fileName) ".kml"

/-- `ShapeValidator.SHP_SET` (validators.py 74). -/
def SHP_SET : List String := ["dbf", "shp", "shx", "prj"]

/-- `el.rsplit('.', 1)[1]` guarded by `len(el.lower().rsplit('.', 1)) > 1`:
the text after the last dot, when the name contains a dot at all. -/
def extAfterLastDot (s : String) : Option String :=
  let parts := (splitOnChar '.' s.data).map String.mk
  if parts.length > 1 then parts.getLast? else none

/-- `ShapeValidator.driver_validation` (validators.py 79-93): collect the
extension of every dotted candidate name and test
`SHP_SET.issubset(files_extension)`. -/
def shapeDriverValidation (files : List String) : Bool :=
  let files_extension := files.filterMap extAfterLastDot
  if SHP_SET.all (fun e => decide (e ∈ files_extension)) then true else false

/-- `VectorValidator.__set_data_source` (validators.py 23-35): open with the
format driver; while walking the layers of the originally opened datasource,
any layer of the current datasource with zero features swaps the datasource
for the generic `ogr.Open` result. -/
def setDataSource (driverDs genericDs : List (List Feature)) :
    List (List Feature) :=
  (List.range driverDs.length).foldl
    (fun ds i => if (ds.getD i []).isEmpty then genericDs else ds) driverDs

/-- `write_geometry_to_data_source` of a single candidate file: a raise from
the geometry library propagates, otherwise the per-layer loop runs on the
datasource selected by `__set_data_source`. -/
def writeGeometryToDataSource (info : FileInfo) (types : List String)
    (out : List OutLayer) : Except PyErr (List OutLayer) :=
  match info.openRaises with
  | some e => Except.error e
  | none =>
    Except.ok (writeGeometryLoop (setDataSource info.driverLayers info.genericLayers)
      types out)

/-- C7: the GeoJSON validator's `matches` never raises, and reports `true`
exactly when the MIME type is `text/plain`, the content reads and parses as
a JSON object, and the external geometry datasource can open the file; any
failure in that chain yields `false` instead of an exception. -/
theorem c7_geojson_validation_total (info : FileInfo) :
    isOkE (geoJSONDriverValidation info) = true ∧
    (geoJSONDriverValidation info = Except.ok true ↔
      (info.mime = "text/plain" ∧ isOkE info.readResult = true ∧
       info.jsonShape = some JsonShape.obj ∧ isOkE info.dsOpen = true)) := by
  by_cases hm : info.mime = "text/plain"
  · cases hr : info.readResult with
    | error e => simp [geoJSONDriverValidation, geoJSONTryChain, hm, hr, isOkE]
    | ok s =>
      cases hj : info.jsonShape with
      | none => simp [geoJSONDriverValidation, geoJSONTryChain, hm, hr, hj, isOkE]
      | some shape =>
        cases shape with
        | obj =>
          cases hd : info.dsOpen with
          | error e =>
            simp [geoJSONDriverValidation, geoJSONTryChain, hm, hr, hj, hd, isOkE]
          | ok u =>
            simp [geoJSONDriverValidation, geoJSONTryChain, hm, hr, hj, hd, isOkE]
        | arr => simp [geoJSONDriverValidation, geoJSONTryChain, hm, hr, hj, isOkE]
        | scalar => simp [geoJSONDriverValidation, geoJSONTryChain, hm, hr, hj, isOkE]
  · simp [geoJSONDriverValidation, hm, isOkE]

/-- C5: for every candidate file (represented by the datasource its
validator ends up reading) and every feature in it, the write loop appends
to the output layer a feature carrying a clone of the feature's geometry
(round-tripped through its WKT text, hence equal to the original) exactly
when the type filter is empty or the geometry type name is a member of the
filter; a feature failing a non-empty filter is still appended, with no
geometry.  With an empty filter every input geometry is appended. -/
theorem c5_geometry_filter (info : FileInfo) (types : List String)
    (out : List OutLayer)
    (hOpen : info.openRaises = none)
    (h : ∀ layer ∈ setDataSource info.driverLayers info.genericLayers,
      ∀ f ∈ layer, ∀ c ∈ f.geom.name.data, c ≠ ' ') :
    writeGeometryToDataSource info types out =
      Except.ok (writeGeometryLoop
        (setDataSource info.driverLayers info.genericLayers) types out) ∧
    layer0Features (writeGeometryLoop
        (setDataSource info.driverLayers info.genericLayers) types out) =
      layer0Features out ++
        (setDataSource info.driverLayers info.genericLayers).flatten.map
          (fun f => if types = [] ∨ f.geom.name ∈ types
            then { geom := some f.geom } else { geom := none }) := by
  constructor
  · simp [writeGeometryToDataSource, hOpen]
  · rw [layer0_writeGeometryLoop types _ out h]
    unfold specOutFeature
    rfl

/-- C5 witness: a two-feature datasource filtered to `POINT` keeps the point
geometry and appends the linestring as an empty feature. -/
theorem c5_geometry_filter_witness :
    writeGeometryToDataSource
        { driverLayers := [[{ geom := { name := "POINT", coords := "(1 1)" } },
                            { geom := { name := "LINESTRING", coords := "(0 0, 1 1)" } }]] }
        ["POINT"] [] =
      Except.ok (writeGeometryLoop
        (setDataSource [[{ geom := { name := "POINT", coords := "(1 1)" } },
                         { geom := { name := "LINESTRING", coords := "(0 0, 1 1)" } }]] [])
        ["POINT"] []) ∧
    layer0Features (writeGeometryLoop
        (setDataSource [[{ geom := { name := "POINT", coords := "(1 1)" } },
                         { geom := { name := "LINESTRING", coords := "(0 0, 1 1)" } }]] [])
        ["POINT"] []) =
      layer0Features [] ++
        (setDataSource [[{ geom := { name := "POINT", coords := "(1 1)" } },
                         { geom := { name := "LINESTRING", coords := "(0 0, 1 1)" } }]] []).flatten.map
          (fun f => if (["POINT"] : List String) = [] ∨ f.geom.name ∈ ["POINT"]
            then { geom := some f.geom } else { geom := none }) :=
  c5_geometry_filter
    { driverLayers := [[{ geom := { name := "POINT", coords := "(1 1)" } },
                        { geom := { name := "LINESTRING", coords := "(0 0, 1 1)" } }]] }
    ["POINT"] [] rfl (by decide)

/- ----------------------------------------------------------------
   Orchestrator model (file_uploader.py, archive_reader.py).
   ---------------------------------------------------------------- -/

/-- MIME-type tables.  `TAR_ARCHIVES_MIME_TYPES`, `ZIP_FILE_MIME_TYPES` and
`SEVEN_ZIP_MIME_TYPES` are `ArchiveReader`'s (archive_reader.py 23-27);
`FILE_TYPES` and `ARCHIVE_TYPES` are `VectorFileUploader`'s
(file_uploader.py 28-33, with the duplicated zip entry). -/
def TAR_ARCHIVES_MIME_TYPES : List String :=
  ["application/x-bzip2", "application/x-tar", "application/gzip",
   "application/x-xz"]

def ZIP_FILE_MIME_TYPES : List String := ["application/zip"]

def SEVEN_ZIP_MIME_TYPES : List String := ["application/x-7z-compressed"]

def FILE_TYPES : List String := ["application/xml", "text/plain", "text/html"]

def ARCHIVE_TYPES : List String :=
  ["application/zip", "application/x-bzip2", "application/x-tar",
   "application/gzip", "application/x-xz", "application/zip",
   "application/x-7z-compressed"]

/-- The on-disk and instance state of one orchestration run. -/
structure FS where
  workspaceCreated : Bool := false
  workspaceExists : Bool := false
  archiveExists : Bool := true
  outputCreated : Bool := false
  outputExists : Bool := false
  outputLayers : List OutLayer := []
  tempFolderVar : Option (List String) := none
  deriving DecidableEq, Repr

/-- State before the run: nothing created, the uploaded file on disk. -/
def FS.start : FS := {}

/-- `shutil.rmtree(..., ignore_errors=True)` on the workspace. -/
def deleteWorkspace (fs : FS) : FS :=
  { fs with workspaceExists := false }

/-- Everything one run depends on from outside: the upload's size, MIME
type and path, the workspace path `ArchiveReader` would allocate, the
behaviour of each archive extractor, the files a recursive walk of the
workspace finds, and the per-file collaborator reports. -/
structure Env where
  uploadPath : String := "/upload/input"
  size : Nat := 0
  maxSize : Nat := 1000000
  mime : String := ""
  workspacePath : List String := ["tmp", "aoi", "ws1"]
  zipResult : Except PyErr Unit := Except.ok ()
  tarMembers : List (List String) := []
  sevenZipExit : Int := 0
  walkFiles : List String := []
  outputName : String := "/tmp/aoi/out.geojson"
  fileInfo : String → FileInfo := fun _ => {}

/-- `VectorFileUploader.__init__` (file_uploader.py 37-51): reject with
`ValidationError` when `getsize(file) >= MAX_VECTOR_FILE_SIZE`, then with
`TypeError` when the MIME type is in neither table. -/
def vectorFileUploaderInit (env : Env) : Option PyErr :=
  if env.maxSize ≤ env.size then
    some (PyErr.validationError ("File size more than " ++ toString env.maxSize))
  else if ¬ env.mime ∈ FILE_TYPES ∧ ¬ env.mime ∈ ARCHIVE_TYPES then
    some (PyErr.typeError (env.mime ++ " not supported by this class"))
  else none

/-- `ArchiveReader.__init__` (archive_reader.py 29-46): re-sniff the MIME
type; for a supported container allocate a fresh workspace directory,
otherwise raise `ValidationError`. -/
def archiveReaderInit (env : Env) (fs : FS) : Except (PyErr × FS) FS :=
  if env.mime ∈ TAR_ARCHIVES_MIME_TYPES ∨ env.mime ∈ ZIP_FILE_MIME_TYPES
      ∨ env.mime ∈ SEVEN_ZIP_MIME_TYPES then
    Except.ok { fs with workspaceCreated := true, workspaceExists := true }
  else
    Except.error
      (PyErr.validationError ("Incorrect MIME_TYPE. " ++ env.mime ++ " does not support"),
       fs)

/-- `ArchiveReader.get_files` (archive_reader.py 116-126): zip extraction
via `zipfile`, tar extraction via `safe_extract` (the path-traversal check),
7z extraction via an external command whose exit status is never inspected
(`env.sevenZipExit` is unused).  Successful extraction deletes the archive
file; the returned candidate list is the recursive walk of the workspace. -/
def archiveGetFiles (env : Env) (fs : FS) :
    Except (PyErr × FS) (List String × FS) :=
  if env.mime ∈ ZIP_FILE_MIME_TYPES then
    match env.zipResult with
    | Except.error e => Except.error (e, fs)
    | Except.ok _ => Except.ok (env.walkFiles, { fs with archiveExists := false })
  else if env.mime ∈ TAR_ARCHIVES_MIME_TYPES then
    match safe_extract env.workspacePath env.tarMembers with
    | Except.error msg => Except.error (PyErr.exception msg, fs)
    | Except.ok _ => Except.ok (env.walkFiles, { fs with archiveExists := false })
  else if env.mime ∈ SEVEN_ZIP_MIME_TYPES then
    Except.ok (env.walkFiles, { fs with archiveExists := false })
  else
    Except.error (PyErr.typeError "cannot unpack non-iterable NoneType object", fs)

/-- Step 2 of `__write_geometry_by_type` (file_uploader.py 89-93): a plain
vector upload is its own single candidate; an archive goes through
`ArchiveReader`, and only after `get_files()` returns is `self.TEMP_FOLDER`
assigned. -/
def materializeCandidates (env : Env) (fs : FS) :
    Except (PyErr × FS) (List String × FS) :=
  if env.mime ∈ FILE_TYPES then
    Except.ok ([env.uploadPath], fs)
  else
    match archiveReaderInit env fs with
    | Except.error ef => Except.error ef
    | Except.ok fs1 =>
      match archiveGetFiles env fs1 with
      | Except.error ef => Except.error ef
      | Except.ok (files, fs2) =>
        Except.ok (files, { fs2 with tempFolderVar := some env.workspacePath })

/-- `__get_driver_for_file` (file_uploader.py 67-78): KMZ, then KML, then
GeoJSON; `None` when nothing matches. -/
inductive Driver where
  | kmz
  | kml
  | geojson
  deriving DecidableEq, Repr

def getDriverForFile (env : Env) (f : String) : Option Driver :=
  let info := env.fileInfo f
  if kmzMatches info f then some Driver.kmz
  else if kmlMatches info f then some Driver.kml
  else
    match geoJSONDriverValidation info with
    | Except.ok true => some Driver.geojson
    | _ => none

/-- The `while self.file:` dispatch loop (file_uploader.py 95-104) after
reversing the candidate list: `pop()` takes from the end, so the loop walks
the reversed list, stops at a falsy (empty) name, routes matched files to
their validator and collects the rest for the Shapefile pass. -/
def dispatchRev (env : Env) (types : List String) :
    List String → List String → FS → Except (PyErr × FS) (List String × FS)
  | [], shp, fs => Except.ok (shp, fs)
  | s :: rest, shp, fs =>
    if s = "" then Except.ok (shp, fs)
    else
      match getDriverForFile env s with
      | some _ =>
        match writeGeometryToDataSource (env.fileInfo s) types fs.outputLayers with
        | Except.error e => Except.error (e, fs)
        | Except.ok out' =>
          dispatchRev env types rest shp { fs with outputLayers := out' }
      | none => dispatchRev env types rest (shp ++ [s]) fs

/-- `ShapeValidator.get_geometry_from_shp_files` (validators.py 107-124):
every `.shp` file among the leftover candidates is fed to
`write_geometry_to_data_source`; companion files are never checked here. -/
def shpWriteAll (env : Env) (types : List String) :
    List String → FS → Except (PyErr × FS) FS
  | [], fs => Except.ok fs
  | f :: rest, fs =>
    match writeGeometryToDataSource (env.fileInfo f) types fs.outputLayers with
    | Except.error e => Except.error (e, fs)
    | Except.ok out' => shpWriteAll env types rest { fs with outputLayers := out' }

def shpPassFS (env : Env) (types : List String) (shpFiles : List String)
    (fs : FS) : Except (PyErr × FS) FS :=
  shpWriteAll env types (shpFiles.filter (fun f => strEndsWith f ".shp")) fs

/-- The tail of `__write_geometry_by_type` after the candidates exist:
`files.pop()` raises `IndexError` on an empty list, then the dispatch loop
runs, then the Shapefile pass, then — only when an `ArchiveReader` was
constructed — the workspace is removed. -/
def afterMaterialize (env : Env) (types : List String) (archiveUsed : Bool)
    (files : List String) (fs : FS) : Except (PyErr × FS) FS :=
  if files.isEmpty then Except.error (PyErr.indexError, fs)
  else
    match dispatchRev env types files.reverse [] fs with
    | Except.error ef => Except.error ef
    | Except.ok (shp, fs2) =>
      match (if shp.isEmpty then Except.ok fs2 else shpPassFS env types shp fs2) with
      | Except.error ef => Except.error ef
      | Except.ok fs3 =>
        Except.ok (if archiveUsed then deleteWorkspace fs3 else fs3)

/-- `__write_geometry_by_type` (file_uploader.py 80-113). -/
def writeGeometryByType (env : Env) (types : List String) (fs : FS) :
    Except (PyErr × FS) FS :=
  match materializeCandidates env fs with
  | Except.error ef => Except.error ef
  | Except.ok (files, fs1) =>
    afterMaterialize env types (!decide (env.mime ∈ FILE_TYPES)) files fs1

/-- The state right after `CreateDataSource(name)` made the output artifact. -/
def postCreateFS (fs0 : FS) : FS :=
  { fs0 with outputCreated := true, outputExists := true, outputLayers := [] }

/-- `create_output_data_source` (file_uploader.py 115-131): create the
output artifact, run `__write_geometry_by_type`, and on any exception
remove the workspace recorded in `TEMP_FOLDER` (when set) and the output
file, re-raising the original exception. -/
def createOutputDataSource (env : Env) (types : List String) (fs0 : FS) :
    Except PyErr String × FS :=
  match writeGeometryByType env types (postCreateFS fs0) with
  | Except.ok fs' => (Except.ok env.outputName, fs')
  | Except.error (e, fsE) =>
    (Except.error e,
     { (if fsE.tempFolderVar.isSome then deleteWorkspace fsE else fsE) with
       outputExists := false })

/-- One whole run: construct the uploader (size and MIME validation), then
`create_output_data_source`. -/
def fullRun (env : Env) (types : List String) (fs0 : FS) :
    Except PyErr String × FS :=
  match vectorFileUploaderInit env with
  | some e => (Except.error e, fs0)
  | none => createOutputDataSource env types fs0

/-- Total number of features in the output artifact. -/
def totalFeatures (layers : List OutLayer) : Nat :=
  (layers.map (fun l => l.features.length)).sum

/-- `True` exactly for Django's `ValidationError`. -/
def isValidationErrorOpt : Option PyErr → Bool
  | some (PyErr.validationError _) => true
  | _ => false

/- ----------------------------------------------------------------
   Concrete runs used as counterexamples and witnesses.
   ---------------------------------------------------------------- -/

/-- A tar upload whose only entry is `../../../etc/evil`: extraction itself
raises, before `self.TEMP_FOLDER` is ever assigned. -/
def E2 : Env :=
  { size := 1, maxSize := 100, mime := "application/x-tar",
    tarMembers := [["..", "..", "..", "etc", "evil"]] }

/-- A plain `.kml` upload whose geometry driver raises while reading. -/
def E3 : Env :=
  { uploadPath := "/upload/input.kml", size := 1, maxSize := 100,
    mime := "text/plain",
    fileInfo := fun _ =>
      { mime := "text/plain", openRaises := some (PyErr.exception "driver failure") } }

/-- The end-to-end ZIP of the spec: `a.geojson` with 3 Point features and
`b.kml` with 2 Polygon features, empty geometry-type filter. -/
def E4 : Env :=
  { size := 10, maxSize := 100, mime := "application/zip",
    walkFiles := ["/ws/a.geojson", "/ws/b.kml"],
    fileInfo := fun f =>
      if f = "/ws/a.geojson" then
        { mime := "text/plain", readResult := Except.ok "{}",
          jsonShape := some JsonShape.obj, dsOpen := Except.ok (),
          driverLayers :=
            [[{ geom := { name := "POINT", coords := "(1 1)" } },
              { geom := { name := "POINT", coords := "(2 2)" } },
              { geom := { name := "POINT", coords := "(3 3)" } }]] }
      else if f = "/ws/b.kml" then
        { mime := "application/xml",
          driverLayers :=
            [[{ geom := { name := "POLYGON", coords := "((0 0, 1 0, 1 1, 0 0))" } },
              { geom := { name := "POLYGON", coords := "((2 2, 3 2, 3 3, 2 2))" } }]] }
      else {} }

/-- The polygon geometry used by the lone-shapefile scenario. -/
def lonePolygon : Geometry :=
  { name := "POLYGON", coords := "((0 0, 1 0, 1 1, 0 0))" }

/-- A ZIP containing a single `.shp` file with none of its `.dbf`/`.shx`/
`.prj` companions. -/
def E6 : Env :=
  { size := 10, maxSize := 100, mime := "application/zip",
    walkFiles := ["/ws/lone.shp"],
    fileInfo := fun f =>
      if f = "/ws/lone.shp" then
        { mime := "application/octet-stream",
          driverLayers :=
            [[{ geom := { name := "POLYGON", coords := "((0 0, 1 0, 1 1, 0 0))" } }]] }
      else {} }

/-- An upload whose size equals the configured maximum exactly. -/
def E8 : Env := { size := 100, maxSize := 100, mime := "text/plain" }

/-- An upload with an unrecognised MIME type. -/
def E9 : Env := { size := 1, maxSize := 100, mime := "image/png" }

/-- A 7z archive whose external extraction command fails (non-zero exit,
never checked) and therefore leaves the workspace empty. -/
def E10 : Env :=
  { size := 1, maxSize := 100, mime := "application/x-7z-compressed",
    sevenZipExit := 1, walkFiles := [] }

/-- The state `materializeCandidates` leaves behind for `E10`. -/
def E10failState : FS :=
  { workspaceCreated := true, workspaceExists := true, archiveExists := false,
    outputCreated := true, outputExists := true, outputLayers := [],
    tempFolderVar := some ["tmp", "aoi", "ws1"] }

/-- C2 (counterexample): when tar extraction itself raises, the workspace
directory created by `ArchiveReader.__init__` is never deleted —
`self.TEMP_FOLDER` was not yet assigned, so the rollback in
`create_output_data_source` skips the `rmtree`. -/
theorem c2_workspace_cleanup_counterexample :
    (fullRun E2 [] FS.start).1
      = Except.error (PyErr.exception "Attempted Path Traversal in Tar File")
    ∧ (fullRun E2 [] FS.start).2.workspaceCreated = true
    ∧ (fullRun E2 [] FS.start).2.workspaceExists = true := by
  exact ⟨rfl, rfl, rfl⟩

/-- C3: whenever any step after the output artifact was created raises, the
run deletes the output file and re-raises the very same exception value. -/
theorem c3_output_rollback (env : Env) (types : List String) (e : PyErr)
    (fsE : FS)
    (hinit : vectorFileUploaderInit env = none)
    (h : writeGeometryByType env types (postCreateFS FS.start)
      = Except.error (e, fsE)) :
    (fullRun env types FS.start).1 = Except.error e ∧
    (fullRun env types FS.start).2.outputExists = false := by
  unfold fullRun
  rw [hinit]
  unfold createOutputDataSource
  rw [h]
  exact ⟨rfl, rfl⟩

/-- C3 witness: a plain KML upload whose driver raises mid-read ends with
the output artifact removed and the original exception re-raised. -/
theorem c3_output_rollback_witness :
    (fullRun E3 [] FS.start).1 = Except.error (PyErr.exception "driver failure") ∧
    (fullRun E3 [] FS.start).2.outputExists = false :=
  c3_output_rollback E3 [] (PyErr.exception "driver failure")
    (postCreateFS FS.start) rfl rfl

/-- C4 (counterexample): on the spec's end-to-end ZIP the output artifact
holds all 5 features but only ONE layer — `write_geometry_to_data_source`
reuses `data_source.GetLayer()` (layer 0) once any layer exists, so the
claimed 2 layers never materialise. -/
theorem c4_end_to_end_counterexample :
    (fullRun E4 [] FS.start).2.outputLayers.length = 1 ∧
    ¬ (fullRun E4 [] FS.start).2.outputLayers.length = 2 ∧
    totalFeatures (fullRun E4 [] FS.start).2.outputLayers = 5 := by
  refine ⟨by decide, by decide, by decide⟩

/-- C4 (amended): the end-to-end ZIP run succeeds with one layer holding
all 5 features; the ZIP file is deleted and the workspace directory is
deleted after the run. -/
theorem c4_end_to_end_amended :
    (fullRun E4 [] FS.start).1 = Except.ok "/tmp/aoi/out.geojson" ∧
    (fullRun E4 [] FS.start).2.outputLayers.length = 1 ∧
    totalFeatures (fullRun E4 [] FS.start).2.outputLayers = 5 ∧
    (fullRun E4 [] FS.start).2.archiveExists = false ∧
    (fullRun E4 [] FS.start).2.workspaceExists = false := by
  exact ⟨rfl, by decide, by decide, by decide, by decide⟩

/-- C6 (counterexample): a lone `.shp` with no `.dbf`/`.shx`/`.prj`
companions fails `matches_set`, yet the orchestrator's Shapefile pass still
processes it — its geometry ends up in the output artifact. -/
theorem c6_shapefile_set_counterexample :
    shapeDriverValidation ["/ws/lone.shp"] = false ∧
    (fullRun E6 [] FS.start).2.outputLayers =
      [{ name := "layer_1", features := [{ geom := some lonePolygon }] }] := by
  exact ⟨by decide, by decide⟩

/-- C6 (amended): `matches_set` returns true iff the extension set of the
candidate list is a superset of `{dbf, shp, shx, prj}`; but the
orchestrator's Shapefile pass never consults `matches_set` — every
unmatched `.shp` file is handed to geometry extraction even when its
companions are missing. -/
theorem c6_shapefile_set_amended (files : List String) (env : Env)
    (types : List String) (fs : FS) (f : String) (out' : List OutLayer)
    (hshp : strEndsWith f ".shp" = true)
    (hw : writeGeometryToDataSource (env.fileInfo f) types fs.outputLayers
      = Except.ok out') :
    (shapeDriverValidation files = true ↔
      ∀ e ∈ SHP_SET, ∃ g, g ∈ files ∧ extAfterLastDot g = some e) ∧
    shpPassFS env types [f] fs = Except.ok { fs with outputLayers := out' } := by
  constructor
  · unfold shapeDriverValidation
    simp only [List.all_eq_true, decide_eq_true_iff, List.mem_filterMap]
    constructor
    · intro h
      split at h
      · intro e he
        obtain ⟨g, hg, hge⟩ := (by assumption : ∀ e ∈ SHP_SET,
          ∃ a ∈ files, extAfterLastDot a = some e) e he
        exact ⟨g, hg, hge⟩
      · cases h
    · intro h
      rw [if_pos]
      intro e he
      obtain ⟨g, hg, hge⟩ := h e he
      exact ⟨g, hg, hge⟩
  · unfold shpPassFS
    simp only [List.filter, hshp]
    unfold shpWriteAll
    rw [hw]
    rfl

/-- C6 amended witness: the full shapefile set matches, and a lone `.shp`
is processed by the Shapefile pass. -/
theorem c6_shapefile_set_amended_witness :
    (shapeDriverValidation ["a.dbf", "a.shp", "a.shx", "a.prj"] = true ↔
      ∀ e ∈ SHP_SET, ∃ g, g ∈ ["a.dbf", "a.shp", "a.shx", "a.prj"] ∧
        extAfterLastDot g = some e) ∧
    shpPassFS E6 [] ["/ws/lone.shp"] (postCreateFS FS.start) =
      Except.ok { postCreateFS FS.start with outputLayers :=
        [{ name := "layer_1", features := [{ geom := some lonePolygon }] }] } :=
  c6_shapefile_set_amended ["a.dbf", "a.shp", "a.shx", "a.prj"] E6 []
    (postCreateFS FS.start) "/ws/lone.shp" _ (by decide) rfl

/-- C8 (counterexample): an upload whose size equals the maximum is
rejected with `ValidationError` — the check is `>=`, not `>` —
contradicting the claim that the boundary file is accepted. -/
theorem c8_size_limit_counterexample :
    vectorFileUploaderInit E8
      = some (PyErr.validationError "File size more than 100") ∧
    ¬ (E8.maxSize < E8.size) := by
  exact ⟨rfl, by decide⟩

/-- C8 (amended): the constructor raises `ValidationError` iff the size is
greater than OR EQUAL to the configured maximum, and such a rejection
happens before any temporary state exists: the run ends in the untouched
start state. -/
theorem c8_size_limit_amended (env : Env) (types : List String) :
    (isValidationErrorOpt (vectorFileUploaderInit env) = true ↔
      env.maxSize ≤ env.size) ∧
    (env.maxSize ≤ env.size →
      fullRun env types FS.start =
        (Except.error (PyErr.validationError
          ("File size more than " ++ toString env.maxSize)), FS.start)) := by
  by_cases h : env.maxSize ≤ env.size
  · simp [vectorFileUploaderInit, isValidationErrorOpt, fullRun, h]
  · constructor
    · by_cases hm : ¬ env.mime ∈ FILE_TYPES ∧ ¬ env.mime ∈ ARCHIVE_TYPES
      · simp [vectorFileUploaderInit, isValidationErrorOpt, h, hm]
      · simp [vectorFileUploaderInit, isValidationErrorOpt, h, hm]
    · intro hc
      exact absurd hc h

/-- C8 amended witness: the boundary upload (size = max) is rejected with
`ValidationError` and leaves the filesystem untouched. -/
theorem c8_size_limit_amended_witness :
    fullRun E8 [] FS.start =
      (Except.error (PyErr.validationError "File size more than 100"), FS.start) :=
  (c8_size_limit_amended E8 []).2 (by decide)

/-- C9 (counterexample): an `image/png` upload is rejected, but with
`TypeError`, not the claimed `ValidationError`. -/
theorem c9_mime_reject_counterexample :
    vectorFileUploaderInit E9
      = some (PyErr.typeError "image/png not supported by this class") ∧
    isValidationErrorOpt (vectorFileUploaderInit E9) = false := by
  exact ⟨rfl, by decide⟩

/-- C9 (amended): an upload within the size limit whose MIME type is in
neither the plain-vector set nor the archive set is rejected by the
constructor with `TypeError` (not `ValidationError`). -/
theorem c9_mime_reject_amended (env : Env)
    (h1 : env.size < env.maxSize)
    (h2 : ¬ env.mime ∈ FILE_TYPES)
    (h3 : ¬ env.mime ∈ ARCHIVE_TYPES) :
    vectorFileUploaderInit env
      = some (PyErr.typeError (env.mime ++ " not supported by this class")) := by
  unfold vectorFileUploaderInit
  rw [if_neg (by omega), if_pos ⟨h2, h3⟩]

/-- C9 amended witness. -/
theorem c9_mime_reject_amended_witness :
    vectorFileUploaderInit E9
      = some (PyErr.typeError ("image/png" ++ " not supported by this class")) :=
  c9_mime_reject_amended E9 (by decide) (by decide) (by decide)

/-- C10: whenever materialising the candidates succeeds with an empty file
list (empty archive, or a 7z whose extraction command silently failed —
its exit status is never read), `files.pop()` raises `IndexError` and the
run ends in failure with the output artifact removed, never returning an
empty output artifact. -/
theorem c10_empty_candidates_indexerror (env : Env) (types : List String)
    (fs2 : FS)
    (hinit : vectorFileUploaderInit env = none)
    (hmat : materializeCandidates env (postCreateFS FS.start)
      = Except.ok ([], fs2)) :
    (fullRun env types FS.start).1 = Except.error PyErr.indexError ∧
    (fullRun env types FS.start).2.outputExists = false := by
  unfold fullRun
  rw [hinit]
  unfold createOutputDataSource writeGeometryByType
  rw [hmat]
  unfold afterMaterialize
  exact ⟨rfl, rfl⟩

/-- C10 witness: the failed 7z extraction (exit status 1, ignored) yields
zero candidates and the run fails with `IndexError`. -/
theorem c10_empty_candidates_indexerror_witness :
    (fullRun E10 [] FS.start).1 = Except.error PyErr.indexError ∧
    (fullRun E10 [] FS.start).2.outputExists = false :=
  c10_empty_candidates_indexerror E10 [] E10failState rfl rfl

/- ----------------------------------------------------------------
   Workspace-cleanup analysis for C2.
   ---------------------------------------------------------------- -/

/-- Forget the output layers of a state: the dispatch and Shapefile passes
change nothing else. -/
def stripLayers (fs : FS) : FS := { fs with outputLayers := [] }

lemma dispatchRev_ok_strip (env : Env) (types : List String) :
    ∀ (l shp : List String) (fs : FS) (shp' : List String) (fs' : FS),
      dispatchRev env types l shp fs = Except.ok (shp', fs') →
      stripLayers fs' = stripLayers fs := by
  intro l
  induction l with
  | nil =>
    intro shp fs shp' fs' h
    simp only [dispatchRev, Except.ok.injEq, Prod.mk.injEq] at h
    rw [← h.2]
  | cons s rest ih =>
    intro shp fs shp' fs' h
    unfold dispatchRev at h
    split at h
    · simp only [Except.ok.injEq, Prod.mk.injEq] at h
      rw [← h.2]
    · split at h
      · split at h
        · exact absurd h (by simp)
        · rename_i out' hw
          exact ih shp { fs with outputLayers := out' } shp' fs' h
      · exact ih (shp ++ [s]) fs shp' fs' h

lemma shpWriteAll_ok_strip (env : Env) (types : List String) :
    ∀ (l : List String) (fs fs' : FS),
      shpWriteAll env types l fs = Except.ok fs' →
      stripLayers fs' = stripLayers fs := by
  intro l
  induction l with
  | nil =>
    intro fs fs' h
    simp only [shpWriteAll, Except.ok.injEq] at h
    rw [← h]
  | cons f rest ih =>
    intro fs fs' h
    unfold shpWriteAll at h
    split at h
    · exact absurd h (by simp)
    · rename_i out' hw
      exact ih { fs with outputLayers := out' } fs' h

lemma afterMaterialize_plain_ok (env : Env) (types : List String)
    (files : List String) (fs fs' : FS)
    (h : afterMaterialize env types false files fs = Except.ok fs') :
    stripLayers fs' = stripLayers fs := by
  unfold afterMaterialize at h
  split at h
  · exact absurd h (by simp)
  · split at h
    · exact absurd h (by simp)
    · rename_i shp fs2 hd
      split at h
      · exact absurd h (by simp)
      · rename_i fs3 hsp
        simp at h
        have hstrip2 : stripLayers fs2 = stripLayers fs :=
          dispatchRev_ok_strip env types _ _ _ _ _ hd
        have hstrip3 : stripLayers fs3 = stripLayers fs2 := by
          by_cases hshp : shp.isEmpty
          · rw [if_pos hshp] at hsp
            simp only [Except.ok.injEq] at hsp
            rw [hsp]
          · rw [if_neg hshp] at hsp
            exact shpWriteAll_ok_strip env types _ _ _ hsp
        rw [← h]
        exact hstrip3.trans hstrip2

lemma afterMaterialize_archive_ok (env : Env) (types : List String)
    (files : List String) (fs fs' : FS)
    (h : afterMaterialize env types true files fs = Except.ok fs') :
    fs'.workspaceExists = false := by
  unfold afterMaterialize at h
  split at h
  · exact absurd h (by simp)
  · split at h
    · exact absurd h (by simp)
    · rename_i shp fs2 hd
      split at h
      · exact absurd h (by simp)
      · rename_i fs3 hsp
        simp at h
        rw [← h]
        rfl

lemma materializeCandidates_cases (env : Env) (fs : FS) (files : List String)
    (fs1 : FS) (h : materializeCandidates env fs = Except.ok (files, fs1)) :
    (env.mime ∈ FILE_TYPES ∧ fs1 = fs) ∨ ¬ env.mime ∈ FILE_TYPES := by
  by_cases hm : env.mime ∈ FILE_TYPES
  · left
    refine ⟨hm, ?_⟩
    unfold materializeCandidates at h
    rw [if_pos hm] at h
    simp only [Except.ok.injEq, Prod.mk.injEq] at h
    rw [← h.2]
  · right
    exact hm

lemma writeGeometryByType_ok_workspace (env : Env) (types : List String)
    (fs fs' : FS) (hT : fs.tempFolderVar = none)
    (h : writeGeometryByType env types fs = Except.ok fs')
    (hS : fs'.tempFolderVar.isSome = true) :
    fs'.workspaceExists = false := by
  unfold writeGeometryByType at h
  split at h
  · exact absurd h (by simp)
  · rename_i files fs1 hm
    rcases materializeCandidates_cases env fs files fs1 hm with ⟨hmem, heq1⟩ | hnmem
    · rw [show (!decide (env.mime ∈ FILE_TYPES)) = false by simp [hmem], heq1] at h
      have hstrip := afterMaterialize_plain_ok env types files fs fs' h
      have hvar0 := congrArg FS.tempFolderVar hstrip
      have hvar : fs'.tempFolderVar = fs.tempFolderVar := hvar0
      rw [hvar, hT] at hS
      exact absurd hS (by simp)
    · rw [show (!decide (env.mime ∈ FILE_TYPES)) = true by simp [hnmem]] at h
      exact afterMaterialize_archive_ok env types files fs1 fs' h

/-- C2 (amended): whenever the run ends with `self.TEMP_FOLDER` assigned —
i.e. archive extraction completed and the workspace path was recorded —
the workspace directory has been deleted by the end of the run, on the
success path and on every failure path after extraction.  (A workspace
whose extraction raised before `TEMP_FOLDER` was assigned is leaked; see
the counterexample.) -/
theorem c2_workspace_cleanup_amended (env : Env) (types : List String)
    (h : (fullRun env types FS.start).2.tempFolderVar.isSome = true) :
    (fullRun env types FS.start).2.workspaceExists = false := by
  cases hin : vectorFileUploaderInit env with
  | some e =>
    have hrun : fullRun env types FS.start = (Except.error e, FS.start) := by
      unfold fullRun
      rw [hin]
    rw [hrun] at h
    exact Bool.noConfusion h
  | none =>
    have hrun : fullRun env types FS.start
        = createOutputDataSource env types FS.start := by
      unfold fullRun
      rw [hin]
    rw [hrun] at h ⊢
    cases hw : writeGeometryByType env types (postCreateFS FS.start) with
    | ok fs' =>
      have hco : createOutputDataSource env types FS.start
          = (Except.ok env.outputName, fs') := by
        unfold createOutputDataSource
        rw [hw]
      rw [hco] at h ⊢
      exact writeGeometryByType_ok_workspace env types (postCreateFS FS.start)
        fs' rfl hw h
    | error p =>
      obtain ⟨e, fsE⟩ := p
      have hco : createOutputDataSource env types FS.start =
          (Except.error e,
           { (if fsE.tempFolderVar.isSome then deleteWorkspace fsE else fsE) with
             outputExists := false }) := by
        unfold createOutputDataSource
        rw [hw]
      rw [hco] at h ⊢
      by_cases hTv : fsE.tempFolderVar.isSome
      · rw [if_pos hTv]
        rfl
      · rw [if_neg hTv] at h
        exact absurd h hTv

/-- C2 amended witness: the end-to-end ZIP run records `TEMP_FOLDER` and
its workspace is gone at the end of the run. -/
theorem c2_workspace_cleanup_amended_witness :
    (fullRun E4 [] FS.start).2.tempFolderVar.isSome = true ∧
    (fullRun E4 [] FS.start).2.workspaceExists = false :=
  ⟨by decide, c2_workspace_cleanup_amended E4 [] (by decide)⟩
